import Mathlib

/-!
Shallow embedding of `src/texture.js` from picogl.js: the `Texture` resource
wrapper over a WebGL2 context.  GPU interaction is modelled as a trace of
`GLCall`s; every method of the source becomes a Lean function returning the
updated texture record, the updated allocator state of the context, and the
list of GL calls the method issued, in order.  JavaScript `undefined` is
modelled with `Option`, JS numeric truthiness (`x || y`) is modelled
explicitly, and a construction that would throw a `TypeError` returns `none`.
Integer dimensions are modelled as `Int`; `Math.floor(Math.log2 n)` on a
positive integer is `Nat.log2`.
-/

namespace PicoGL

/-- WebGL enum codes used by `texture.js`; values are those of the WebGL2
specification (they come from the `gl` context object, not from this file). -/
def TEXTURE0 : Int := 33984
def LINEAR : Int := 9729
def LINEAR_MIPMAP_NEAREST : Int := 9985
def LINEAR_MIPMAP_LINEAR : Int := 9987
def REPEAT_WRAP : Int := 10497
def GL_NONE : Int := 0
def LEQUAL : Int := 515
def RGBA : Int := 6408
def UNSIGNED_BYTE : Int := 5121
def RGBA8 : Int := 32856
def TEXTURE_MIN_FILTER : Int := 10241
def TEXTURE_MAG_FILTER : Int := 10240
def TEXTURE_WRAP_S : Int := 10242
def TEXTURE_WRAP_T : Int := 10243
def TEXTURE_WRAP_R : Int := 32882
def TEXTURE_COMPARE_MODE : Int := 34892
def TEXTURE_COMPARE_FUNC : Int := 34893
def TEXTURE_MIN_LOD : Int := 33082
def TEXTURE_MAX_LOD : Int := 33083
def TEXTURE_BASE_LEVEL : Int := 33084
def TEXTURE_MAX_LEVEL : Int := 33085
def UNPACK_FLIP_Y_WEBGL : Int := 37440

/-- Modelled from the spec: the pixel-layout default table
(`texture-format-defaults.js`, required by `texture.js` but not present under
`src/`) is "a fixed mapping from (type, format) pairs to a default internal
storage format".  Only its fixedness matters to the claims; one representative
entry is given. -/
def TEXTURE_FORMAT_DEFAULTS (ty fmt : Int) : Int :=
  if ty = UNSIGNED_BYTE ∧ fmt = RGBA then RGBA8 else 0

/-- One call into the WebGL context, as issued by `texture.js`.  Texture and
sampler handles are `Option Nat` because the JS fields hold either a GL object
or `null`. -/
inductive GLCall : Type
  | createSampler (id : Nat)
  | samplerParameteri (sampler : Option Nat) (pname value : Int)
  | samplerParameterf (sampler : Option Nat) (pname value : Int)
  | createTexture (id : Nat)
  | deleteTexture (handle : Option Nat)
  | deleteSampler (handle : Option Nat)
  | activeTexture (unitEnum : Int)
  | bindTexture (binding : Int) (handle : Option Nat)
  | bindSampler (unit : Int) (sampler : Option Nat)
  | pixelStorei (pname : Int) (flip : Bool)
  | texParameteri (target pname value : Int)
  | texStorage2D (binding : Int) (levels internalFormat w h : Int)
  | texStorage3D (binding : Int) (levels internalFormat w h d : Int)
  | texSubImage2D (binding : Int) (level x y w h fmt ty : Int) (dataId : Nat)
  | texSubImage3D (binding : Int) (level x y z w h d fmt ty : Int) (dataId : Nat)
  | generateMipmap (binding : Int)
  deriving Repr, DecidableEq

/-- Allocator state of the GL context: the next fresh texture / sampler ids.
`createTexture` / `createSampler` hand out `nextTexture` / `nextSampler` and
increment them, so every created handle is distinct from all earlier ones. -/
structure GLState : Type where
  nextTexture : Nat
  nextSampler : Nat
  deriving Repr, DecidableEq

/-- The shared tracked-state collaborator (`appState`): a per-unit record of
the currently bound texture handle.  `texture.js` stores the reference but
never reads or writes it. -/
structure AppState : Type where
  boundTextures : List (Option Nat)
  deriving Repr, DecidableEq

/-- The `Texture` object's fields, as assigned in the constructor. -/
structure Texture : Type where
  binding : Int
  texture : Option Nat
  width : Int
  height : Int
  depth : Int
  format : Int
  type : Int
  internalFormat : Int
  is3D : Bool
  appState : AppState
  sampler : Option Nat
  flipY : Bool
  baseLevel : Option Int
  maxLevel : Option Int
  generateMipmaps : Bool
  deriving Repr, DecidableEq

/-- The recognized entries of the `options` bag; `none` is JS `undefined`. -/
structure TexOptions : Type where
  format : Option Int := none
  type : Option Int := none
  internalFormat : Option Int := none
  minFilter : Option Int := none
  magFilter : Option Int := none
  wrapS : Option Int := none
  wrapT : Option Int := none
  wrapR : Option Int := none
  compareMode : Option Int := none
  compareFunc : Option Int := none
  minLOD : Option Int := none
  maxLOD : Option Int := none
  flipY : Option Bool := none
  baseLevel : Option Int := none
  maxLevel : Option Int := none
  generateMipmaps : Option Bool := none
  deriving Repr, DecidableEq

/-- An initial image: only its intrinsic dimensions and an identifier for the
pixel payload are observable to `texture.js`. -/
structure Image : Type where
  width : Int
  height : Int
  dataId : Nat
  deriving Repr, DecidableEq

/-- `Math.floor(Math.log2 x)` of the source, on integer inputs: for `x ≥ 1`
this is the exact integer floor of the base-2 logarithm, `Nat.log2`. -/
def jsLog2Floor (x : Int) : Int := (Nat.log2 x.toNat : Int)

/-- `bind(unit)` (`texture.js:190-196`): activate the unit, bind the texture
handle to the binding target, bind the sampler to the unit; the object's own
fields (including `appState`) are untouched, and `this` is returned. -/
def Texture.bind (t : Texture) (unit : Int) (s : GLState) :
    Texture × GLState × List GLCall :=
  (t, s,
    [GLCall.activeTexture (TEXTURE0 + unit),
     GLCall.bindTexture t.binding t.texture,
     GLCall.bindSampler unit t.sampler])

/-- `resize(width, height, depth)` (`texture.js:108-150`).  `depth = depth || 0`
(an absent or zero depth normalizes to 0); if the normalized triple equals the
recorded one the method returns at once; otherwise the old handle is deleted,
a fresh one created and bound to unit 0, the dimensions recorded, the flip
flag re-issued, the optional level clamps re-applied, and immutable storage
allocated with the computed mipmap level count. -/
def Texture.resize (t : Texture) (width height : Int) (depthArg : Option Int)
    (s : GLState) : Texture × GLState × List GLCall :=
  let depth : Int := depthArg.getD 0
  if width = t.width ∧ height = t.height ∧ depth = t.depth then
    (t, s, [])
  else
    let c1 : List GLCall := [GLCall.deleteTexture t.texture]
    let handle : Nat := s.nextTexture
    let s : GLState := { s with nextTexture := s.nextTexture + 1 }
    let c1 : List GLCall := c1 ++ [GLCall.createTexture handle]
    let t : Texture := { t with texture := some handle }
    let (t, s, cBind) := t.bind 0 s
    let t : Texture := { t with width := width, height := height, depth := depth }
    let c2 : List GLCall := [GLCall.pixelStorei UNPACK_FLIP_Y_WEBGL t.flipY]
    let c3 : List GLCall :=
      match t.baseLevel with
      | some b => [GLCall.texParameteri t.binding TEXTURE_BASE_LEVEL b]
      | none => []
    let c4 : List GLCall :=
      match t.maxLevel with
      | some m => [GLCall.texParameteri t.binding TEXTURE_MAX_LEVEL m]
      | none => []
    if t.is3D then
      let levels : Int :=
        if t.generateMipmaps then
          jsLog2Floor (max (max t.width t.height) t.depth) + 1
        else 1
      (t, s, c1 ++ cBind ++ c2 ++ c3 ++ c4 ++
        [GLCall.texStorage3D t.binding levels t.internalFormat
          t.width t.height t.depth])
    else
      let levels : Int :=
        if t.generateMipmaps then
          jsLog2Floor (max t.width t.height) + 1
        else 1
      (t, s, c1 ++ cBind ++ c2 ++ c3 ++ c4 ++
        [GLCall.texStorage2D t.binding levels t.internalFormat
          t.width t.height])

/-- `data(data)` (`texture.js:159-173`): when a buffer is supplied, upload it
over the full allocated extent and, if mipmaps are enabled, regenerate the
chain; otherwise do nothing.  Returns `this`. -/
def Texture.data (t : Texture) (buf : Option Nat) (s : GLState) :
    Texture × GLState × List GLCall :=
  match buf with
  | some d =>
    let up : List GLCall :=
      if t.is3D then
        [GLCall.texSubImage3D t.binding 0 0 0 0 t.width t.height t.depth
          t.format t.type d]
      else
        [GLCall.texSubImage2D t.binding 0 0 0 t.width t.height
          t.format t.type d]
    let gen : List GLCall :=
      if t.generateMipmaps then [GLCall.generateMipmap t.binding] else []
    (t, s, up ++ gen)
  | none => (t, s, [])

/-- `delete()` (`texture.js:180-187`): when the texture handle is non-null,
delete both GL objects and clear both handles; otherwise do nothing. -/
def Texture.delete (t : Texture) (s : GLState) :
    Texture × GLState × List GLCall :=
  match t.texture with
  | some _ =>
    ({ t with texture := none, sampler := none }, s,
      [GLCall.deleteTexture t.texture, GLCall.deleteSampler t.sampler])
  | none => (t, s, [])

/-- JS `v || image.f`: a supplied nonzero number short-circuits; otherwise the
image's intrinsic dimension is read, which throws (`none`) when `image` is
absent. -/
def jsOrImageDim (v : Option Int) (image : Option Image) (f : Image → Int) :
    Option Int :=
  match v with
  | some x => if x ≠ 0 then some x else image.map f
  | none => image.map f

/-- The field assignments of the constructor body (`texture.js:50-93`): the
texture record as it stands right before the constructor's `resize` call,
with the freshly created sampler handle `samplerId`.  All option defaults are
those of the source; `generateMipmaps` is
`options.generateMipmaps !== false && (minFilter is a mipmap filter)`. -/
def initTexture (appState : AppState) (binding : Int) (is3D : Bool)
    (options : TexOptions) (samplerId : Nat) : Texture :=
  let format : Int := options.format.getD RGBA
  let ty : Int := options.type.getD UNSIGNED_BYTE
  let minFilter : Int := options.minFilter.getD LINEAR_MIPMAP_NEAREST
  { binding := binding
    texture := none
    width := -1
    height := -1
    depth := -1
    format := format
    type := ty
    internalFormat :=
      options.internalFormat.getD (TEXTURE_FORMAT_DEFAULTS ty format)
    is3D := is3D
    appState := appState
    sampler := some samplerId
    flipY := options.flipY.getD false
    baseLevel := options.baseLevel
    maxLevel := options.maxLevel
    generateMipmaps := options.generateMipmaps != some false &&
      (minFilter == LINEAR_MIPMAP_NEAREST || minFilter == LINEAR_MIPMAP_LINEAR) }

/-- The sampler-creation and sampler-parameter calls issued by the
constructor (`texture.js:73-86`). -/
def samplerSetupCalls (options : TexOptions) (samplerId : Nat) :
    List GLCall :=
  let smp : Option Nat := some samplerId
  [GLCall.createSampler samplerId,
   GLCall.samplerParameteri smp TEXTURE_MIN_FILTER
     (options.minFilter.getD LINEAR_MIPMAP_NEAREST),
   GLCall.samplerParameteri smp TEXTURE_MAG_FILTER
     (options.magFilter.getD LINEAR),
   GLCall.samplerParameteri smp TEXTURE_WRAP_S (options.wrapS.getD REPEAT_WRAP),
   GLCall.samplerParameteri smp TEXTURE_WRAP_T (options.wrapT.getD REPEAT_WRAP),
   GLCall.samplerParameteri smp TEXTURE_WRAP_R (options.wrapR.getD REPEAT_WRAP),
   GLCall.samplerParameteri smp TEXTURE_COMPARE_FUNC
     (options.compareFunc.getD LEQUAL),
   GLCall.samplerParameteri smp TEXTURE_COMPARE_MODE
     (options.compareMode.getD GL_NONE)]
  ++ (match options.minLOD with
      | some v => [GLCall.samplerParameterf smp TEXTURE_MIN_LOD v]
      | none => [])
  ++ (match options.maxLOD with
      | some v => [GLCall.samplerParameterf smp TEXTURE_MAX_LOD v]
      | none => [])

/-- The constructor body once the width/height resolution of lines 46-47 has
succeeded: create and program the sampler, then `resize`, `data`, `bind 0`
(`texture.js:73-97`). -/
def constructTexture (appState : AppState) (binding : Int)
    (image : Option Image) (w h : Int) (depth : Option Int) (is3D : Bool)
    (options : TexOptions) (s : GLState) : Texture × GLState × List GLCall :=
  let samplerId : Nat := s.nextSampler
  let s : GLState := { s with nextSampler := s.nextSampler + 1 }
  let cSampler : List GLCall := samplerSetupCalls options samplerId
  let t : Texture := initTexture appState binding is3D options samplerId
  let (t, s, cResize) := t.resize w h depth s
  let (t, s, cData) := t.data (image.map Image.dataId) s
  let (t, s, cBind) := t.bind 0 s
  (t, s, cSampler ++ cResize ++ cData ++ cBind)

/-- The `Texture` constructor (`texture.js:45-98`).  Returns `none` when the
JS code would throw a `TypeError` reading `image.width` / `image.height` with
no image supplied. -/
def mkTexture (appState : AppState) (binding : Int) (image : Option Image)
    (width height depth : Option Int) (is3D : Bool) (options : TexOptions)
    (s : GLState) : Option (Texture × GLState × List GLCall) :=
  match jsOrImageDim width image Image.width,
        jsOrImageDim height image Image.height with
  | some w, some h =>
    some (constructTexture appState binding image w h depth is3D options s)
  | _, _ => none

/-- The mipmap level count passed to the (unique) storage-allocation call of a
trace, if any. -/
def storageLevels : List GLCall → Option Int
  | [] => none
  | GLCall.texStorage2D _ levels _ _ _ :: _ => some levels
  | GLCall.texStorage3D _ levels _ _ _ _ :: _ => some levels
  | _ :: rest => storageLevels rest

/-- Calls that create or configure a sampler object. -/
def isSamplerCall : GLCall → Bool
  | GLCall.createSampler _ => true
  | GLCall.samplerParameteri _ _ _ => true
  | GLCall.samplerParameterf _ _ _ => true
  | _ => false

/-- Sampler-creation calls. -/
def isCreateSampler : GLCall → Bool
  | GLCall.createSampler _ => true
  | _ => false

/-- A post-construction operation on a texture: the public methods other than
`delete`. -/
inductive TexOp : Type
  | resizeOp (w h : Int) (d : Option Int)
  | dataOp (buf : Option Nat)
  | bindOp (unit : Int)
  deriving Repr, DecidableEq

/-- Run one post-construction operation. -/
def Texture.runOp (t : Texture) (s : GLState) :
    TexOp → Texture × GLState × List GLCall
  | TexOp.resizeOp w h d => t.resize w h d s
  | TexOp.dataOp b => t.data b s
  | TexOp.bindOp u => t.bind u s

/-- Run a sequence of post-construction operations, concatenating the traces. -/
def Texture.runOps (t : Texture) (s : GLState) :
    List TexOp → Texture × GLState × List GLCall
  | [] => (t, s, [])
  | op :: rest =>
    let r1 := t.runOp s op
    let r2 := r1.1.runOps r1.2.1 rest
    (r2.1, r2.2.1, r1.2.2 ++ r2.2.2)

/-- WebGL binding-target enums, for concrete instances. -/
def TEXTURE_2D : Int := 3553
def TEXTURE_3D : Int := 32879

/-- Concrete fixtures used by witnesses and counterexamples. -/
def glState0 : GLState := ⟨0, 0⟩

def appState0 : AppState := ⟨[none, none, none, none]⟩

def img0 : Image := ⟨64, 32, 7⟩

def tex0 : Texture :=
  { binding := TEXTURE_2D
    texture := some 5
    width := 64
    height := 32
    depth := 0
    format := RGBA
    type := UNSIGNED_BYTE
    internalFormat := RGBA8
    is3D := false
    appState := appState0
    sampler := some 2
    flipY := false
    baseLevel := none
    maxLevel := none
    generateMipmaps := true }

def glState1 : GLState := ⟨6, 3⟩

/-- Options with a non-mipmap min filter but mipmaps explicitly requested. -/
def opts9 : TexOptions := { minFilter := some LINEAR, generateMipmaps := some true }

/-- Concrete constructor runs (image 64×32, defaulted / explicit options). -/
def ctor0 : Texture × GLState × List GLCall :=
  constructTexture appState0 TEXTURE_2D (some img0) 64 32 none false {} glState0

def ctor9 : Texture × GLState × List GLCall :=
  constructTexture appState0 TEXTURE_2D (some img0) 64 32 none false opts9
    glState0

/-- A concrete post-construction operation sequence. -/
def ops0 : List TexOp :=
  [TexOp.resizeOp 16 16 none, TexOp.dataOp (some 1), TexOp.bindOp 2]

/-! ## Helper lemmas -/

/-- Full characterization of the texture record returned by `resize`. -/
theorem resize_fst (t : Texture) (w h : Int) (d : Option Int) (s : GLState) :
    (t.resize w h d s).1 =
      if w = t.width ∧ h = t.height ∧ d.getD 0 = t.depth then t
      else { t with width := w, height := h, depth := d.getD 0,
                    texture := some s.nextTexture } := by
  unfold Texture.resize Texture.bind
  by_cases hg : w = t.width ∧ h = t.height ∧ d.getD 0 = t.depth
  · simp [hg]
  · simp only [hg, if_false]
    by_cases h3 : t.is3D <;> simp [h3]

/-- Full characterization of the allocator state returned by `resize`. -/
theorem resize_snd (t : Texture) (w h : Int) (d : Option Int) (s : GLState) :
    (t.resize w h d s).2.1 =
      if w = t.width ∧ h = t.height ∧ d.getD 0 = t.depth then s
      else { s with nextTexture := s.nextTexture + 1 } := by
  unfold Texture.resize Texture.bind
  by_cases hg : w = t.width ∧ h = t.height ∧ d.getD 0 = t.depth
  · simp [hg]
  · simp only [hg, if_false]
    by_cases h3 : t.is3D <;> simp [h3]

/-- `data` changes neither the texture record nor the allocator state. -/
theorem data_fst_snd (t : Texture) (b : Option Nat) (s : GLState) :
    (t.data b s).1 = t ∧ (t.data b s).2.1 = s := by
  unfold Texture.data
  cases b <;> simp

/-- `resize` never changes the `generateMipmaps` flag. -/
theorem resize_generateMipmaps (t : Texture) (w h : Int) (d : Option Int)
    (s : GLState) :
    (t.resize w h d s).1.generateMipmaps = t.generateMipmaps := by
  rw [resize_fst]
  split <;> rfl

/-- The texture record produced by the constructor body is the initial record
passed through `resize` (the subsequent `data` and `bind` leave it alone). -/
theorem constructTexture_fst (appState : AppState) (binding : Int)
    (image : Option Image) (w h : Int) (depth : Option Int) (is3D : Bool)
    (options : TexOptions) (s : GLState) :
    (constructTexture appState binding image w h depth is3D options s).1 =
      ((initTexture appState binding is3D options s.nextSampler).resize w h
        depth { s with nextSampler := s.nextSampler + 1 }).1 := by
  unfold constructTexture
  exact (data_fst_snd _ _ _).1 ▸ rfl

/-- The `generateMipmaps` flag of any successfully constructed texture is the
source's line 92-93 expression over the resolved options. -/
theorem mkTexture_generateMipmaps (appState : AppState) (binding : Int)
    (image : Option Image) (width height depth : Option Int) (is3D : Bool)
    (opts : TexOptions) (s : GLState) (r : Texture × GLState × List GLCall)
    (hr : mkTexture appState binding image width height depth is3D opts s =
      some r) :
    r.1.generateMipmaps = (opts.generateMipmaps != some false &&
      (opts.minFilter.getD LINEAR_MIPMAP_NEAREST == LINEAR_MIPMAP_NEAREST ||
       opts.minFilter.getD LINEAR_MIPMAP_NEAREST == LINEAR_MIPMAP_LINEAR)) := by
  unfold mkTexture at hr
  cases hjw : jsOrImageDim width image Image.width with
  | none => rw [hjw] at hr; exact Option.noConfusion hr
  | some w =>
    cases hjh : jsOrImageDim height image Image.height with
    | none => rw [hjw, hjh] at hr; exact Option.noConfusion hr
    | some h =>
      rw [hjw, hjh] at hr
      have hr' : constructTexture appState binding image w h depth is3D opts s
          = r := Option.some.inj hr
      rw [← hr', constructTexture_fst, resize_generateMipmaps]
      rfl

/-- `jsLog2Floor` is the exact integer floor of the base-2 logarithm: it is the
unique `k` with `2 ^ k ≤ M < 2 ^ (k + 1)`. -/
theorem jsLog2Floor_eq (M : Int) (k : Nat) (h1 : (2 : Int) ^ k ≤ M)
    (h2 : M < 2 ^ (k + 1)) : jsLog2Floor M = k := by
  have hM0 : 0 ≤ M := le_trans (pow_nonneg (by norm_num) k) h1
  have hcast : M = ((M.toNat : Int)) := (Int.toNat_of_nonneg hM0).symm
  have h1n : 2 ^ k ≤ M.toNat := by
    rw [hcast] at h1
    exact_mod_cast h1
  have h2n : M.toNat < 2 ^ (k + 1) := by
    rw [hcast] at h2
    exact_mod_cast h2
  have : Nat.log2 M.toNat = k := by
    rw [Nat.log2_eq_log_two]
    exact Nat.log_eq_of_pow_le_of_lt_pow h1n h2n
  unfold jsLog2Floor
  exact_mod_cast congrArg Nat.cast this

/-- `resize` issues no sampler-creation or sampler-parameter call. -/
theorem resize_calls_no_sampler (t : Texture) (w h : Int) (d : Option Int)
    (s : GLState) :
    ((t.resize w h d s).2.2).all (fun c => !isSamplerCall c) = true := by
  unfold Texture.resize Texture.bind
  by_cases hg : w = t.width ∧ h = t.height ∧ d.getD 0 = t.depth
  · simp [hg]
  · simp only [hg, if_false]
    by_cases h3 : t.is3D <;>
      cases t.baseLevel <;> cases t.maxLevel <;>
        simp [h3, isSamplerCall]

/-- `data` issues no sampler-creation or sampler-parameter call. -/
theorem data_calls_no_sampler (t : Texture) (b : Option Nat) (s : GLState) :
    ((t.data b s).2.2).all (fun c => !isSamplerCall c) = true := by
  unfold Texture.data
  cases b <;> by_cases h3 : t.is3D <;> by_cases hgm : t.generateMipmaps <;>
    simp [h3, hgm, isSamplerCall]

/-- `bind` issues no sampler-creation or sampler-parameter call. -/
theorem bind_calls_no_sampler (t : Texture) (u : Int) (s : GLState) :
    ((t.bind u s).2.2).all (fun c => !isSamplerCall c) = true := by
  simp [Texture.bind, isSamplerCall]

/-- Any single post-construction operation issues no sampler call and keeps
the sampler handle. -/
theorem runOp_no_sampler (t : Texture) (s : GLState) (op : TexOp) :
    ((t.runOp s op).2.2).all (fun c => !isSamplerCall c) = true ∧
    (t.runOp s op).1.sampler = t.sampler := by
  cases op with
  | resizeOp w h d =>
    refine ⟨resize_calls_no_sampler t w h d s, ?_⟩
    show (t.resize w h d s).1.sampler = t.sampler
    rw [resize_fst]
    split <;> rfl
  | dataOp b =>
    refine ⟨data_calls_no_sampler t b s, ?_⟩
    show (t.data b s).1.sampler = t.sampler
    rw [(data_fst_snd t b s).1]
  | bindOp u => exact ⟨bind_calls_no_sampler t u s, rfl⟩

/-- Any sequence of post-construction operations issues no sampler call and
keeps the sampler handle. -/
theorem runOps_no_sampler (ops : List TexOp) :
    ∀ (t : Texture) (s : GLState),
      ((t.runOps s ops).2.2).all (fun c => !isSamplerCall c) = true ∧
      (t.runOps s ops).1.sampler = t.sampler := by
  induction ops with
  | nil => exact fun t s => ⟨rfl, rfl⟩
  | cons op rest ih =>
    intro t s
    unfold Texture.runOps
    have h1 := runOp_no_sampler t s op
    have h2 := ih (t.runOp s op).1 (t.runOp s op).2.1
    exact ⟨by simp [List.all_append, h1.1, h2.1], h2.2.trans h1.2⟩

/-- The constructor's sampler-setup block creates exactly one sampler. -/
theorem samplerSetupCalls_one_create (o : TexOptions) (sid : Nat) :
    (samplerSetupCalls o sid).countP (fun c => isCreateSampler c) = 1 := by
  unfold samplerSetupCalls
  cases o.minLOD <;> cases o.maxLOD <;>
    simp [isCreateSampler, List.countP_cons, List.countP_append]

/-- A trace with no sampler calls in particular creates no sampler. -/
theorem countP_zero_of_no_sampler (l : List GLCall)
    (h : l.all (fun c => !isSamplerCall c) = true) :
    l.countP (fun c => isCreateSampler c) = 0 := by
  rw [List.countP_eq_zero]
  intro a ha
  have ha' := List.all_eq_true.mp h a ha
  cases a <;> simp_all [isSamplerCall, isCreateSampler]

/-- The full constructor-body trace creates exactly one sampler. -/
theorem constructTexture_one_createSampler (a : AppState) (b : Int)
    (img : Option Image) (w h : Int) (d : Option Int) (i3 : Bool)
    (o : TexOptions) (s : GLState) :
    ((constructTexture a b img w h d i3 o s).2.2).countP
      (fun c => isCreateSampler c) = 1 := by
  unfold constructTexture
  simp only [List.countP_append]
  rw [samplerSetupCalls_one_create,
    countP_zero_of_no_sampler _ (resize_calls_no_sampler _ _ _ _ _),
    countP_zero_of_no_sampler _ (data_calls_no_sampler _ _ _),
    countP_zero_of_no_sampler _ (bind_calls_no_sampler _ _ _)]

/-! ## Claim theorems -/

/-- C1: calling `resize` again with the triple just requested (missing depth
normalized to 0) is a complete no-op: the texture record (handle and recorded
width/height/depth included) and the allocator state are returned unchanged
and the GL-call trace of the second call is empty. -/
theorem C1_resize_idempotent (t : Texture) (s : GLState) (w h : Int)
    (d : Option Int) :
    ((t.resize w h d s).1).resize w h d ((t.resize w h d s).2.1) =
      ((t.resize w h d s).1, (t.resize w h d s).2.1, []) := by
  have hf := resize_fst t w h d s
  by_cases hg : w = t.width ∧ h = t.height ∧ d.getD 0 = t.depth
  · rw [hf]
    simp only [hg, if_true]
    unfold Texture.resize
    simp [hg]
  · rw [hf]
    simp only [hg, if_false]
    unfold Texture.resize
    simp

/-- C2: whenever `resize` re-allocates storage and the governing maximum
dimension `M` (the max over width/height/depth for a 3D-shaped texture, over
width/height for a 2D-shaped one) lies in `[2 ^ k, 2 ^ (k + 1))`, the level
count passed to the storage-allocation call is `k + 1 = floor(log2 M) + 1`
when mipmaps are enabled and `1` when they are disabled. -/
theorem C2_resize_storage_levels (t : Texture) (s : GLState) (w h : Int)
    (d : Option Int) (k : Nat)
    (hneq : ¬(w = t.width ∧ h = t.height ∧ d.getD 0 = t.depth))
    (h1 : (2 : Int) ^ k ≤ (if t.is3D then max (max w h) (d.getD 0) else max w h))
    (h2 : (if t.is3D then max (max w h) (d.getD 0) else max w h) < 2 ^ (k + 1)) :
    storageLevels (t.resize w h d s).2.2 =
      some (if t.generateMipmaps then (k : Int) + 1 else 1) := by
  unfold Texture.resize Texture.bind
  simp only [hneq, if_false]
  by_cases h3 : t.is3D
  · simp only [h3, if_true] at h1 h2 ⊢
    have hlog := jsLog2Floor_eq _ k h1 h2
    cases t.baseLevel <;> cases t.maxLevel <;>
      by_cases hgm : t.generateMipmaps <;>
        simp [storageLevels, hgm, hlog]
  · simp only [h3, if_false, Bool.false_eq_true] at h1 h2 ⊢
    have hlog := jsLog2Floor_eq _ k h1 h2
    cases t.baseLevel <;> cases t.maxLevel <;>
      by_cases hgm : t.generateMipmaps <;>
        simp [storageLevels, hgm, hlog]

/-- C2 witness: resizing the concrete 64×32 2D texture (mipmaps enabled) to
256×256 allocates storage with `floor(log2 256) + 1 = 9` levels. -/
theorem C2_witness :
    storageLevels (tex0.resize 256 256 none glState1).2.2 = some 9 := by
  have h := C2_resize_storage_levels tex0 glState1 256 256 none 8
    (by decide) (by decide) (by decide)
  simpa using h

/-- C3 (as stated, refuted): `bind(unit)` does not update the shared
tracked-state record of the currently bound resource for that unit.  At the
concrete fixture, after `bind 0` the unit-0 slot of `appState` still does not
hold this texture's handle. -/
theorem C3_counterexample :
    ¬ ((tex0.bind 0 glState1).1.appState.boundTextures.getD 0 none =
        (tex0.bind 0 glState1).1.texture) := by
  decide

/-- C3 (amended): `bind(unit)` issues exactly the activate-unit, bind-texture
and bind-sampler calls, returns the object unchanged, and in particular leaves
the shared tracked-state (`appState`) exactly as it was: the source's `bind`
never reads or writes `appState`. -/
theorem C3_bind_calls_appState_unchanged (t : Texture) (unit : Int)
    (s : GLState) :
    t.bind unit s =
      (t, s, [GLCall.activeTexture (TEXTURE0 + unit),
              GLCall.bindTexture t.binding t.texture,
              GLCall.bindSampler unit t.sampler]) ∧
    (t.bind unit s).1.appState = t.appState := by
  exact ⟨rfl, rfl⟩

/-- C4 (as stated, refuted): constructing with the image absent and width and
height also omitted throws — line 46 (`width = width || image.width`) reads a
property of the absent image, so construction does not proceed. -/
theorem C4_counterexample :
    mkTexture appState0 TEXTURE_2D none none none none false {} glState0 =
      none := by
  rfl

/-- C4 (amended): when the initial image is absent, construction raises no
error provided width and height are both supplied and nonzero; allocation then
proceeds with exactly those dimensions (a missing depth defaulting to 0).  (If
width or height is omitted or zero while the image is absent, reading the
image's intrinsic dimension throws.) -/
theorem C4_no_image_allocates (appState : AppState) (binding : Int)
    (w h : Int) (d : Option Int) (is3D : Bool) (opts : TexOptions)
    (s : GLState) (hw : w ≠ 0) (hh : h ≠ 0) :
    (mkTexture appState binding none (some w) (some h) d is3D opts s).map
      (fun r => (r.1.width, r.1.height, r.1.depth)) =
      some (w, h, d.getD 0) := by
  have hjw : jsOrImageDim (some w) none Image.width = some w := by
    simp [jsOrImageDim, hw]
  have hjh : jsOrImageDim (some h) none Image.height = some h := by
    simp [jsOrImageDim, hh]
  unfold mkTexture
  rw [hjw, hjh]
  show Option.map (fun r => (r.1.width, r.1.height, r.1.depth))
      (some (constructTexture appState binding none w h d is3D opts s)) =
    some (w, h, d.getD 0)
  rw [Option.map_some']
  rw [constructTexture_fst, resize_fst]
  by_cases hg : w = -1 ∧ h = -1 ∧ d.getD 0 = -1
  · simp only [initTexture, hg, if_true]
    exact congrArg some (by simp [hg.1, hg.2.1, hg.2.2])
  · simp only [initTexture] at hg ⊢
    simp [hg]

/-- C4 witness: constructing with no image but explicit width 8 and height 4
succeeds and records dimensions (8, 4, 0). -/
theorem C4_witness :
    (8 : Int) ≠ 0 ∧ (4 : Int) ≠ 0 ∧
    (mkTexture appState0 TEXTURE_2D none (some 8) (some 4) none false {}
        glState0).map (fun r => (r.1.width, r.1.height, r.1.depth)) =
      some (8, 4, 0) :=
  ⟨by decide, by decide,
    C4_no_image_allocates appState0 TEXTURE_2D 8 4 none false {} glState0
      (by decide) (by decide)⟩

/-- C5: a `resize` whose normalized triple differs from the recorded one
deletes the previous handle (a `deleteTexture` of the old handle is issued),
installs the freshly created handle — distinct from the prior one, given the
allocator invariant that every live handle is below `nextTexture` — and sets
the recorded width/height/depth to the new values. -/
theorem C5_resize_realloc (t : Texture) (s : GLState) (w h : Int)
    (d : Option Int)
    (hneq : ¬(w = t.width ∧ h = t.height ∧ d.getD 0 = t.depth))
    (hfresh : ∀ n, t.texture = some n → n < s.nextTexture) :
    (t.resize w h d s).1.texture = some s.nextTexture ∧
    (t.resize w h d s).1.texture ≠ t.texture ∧
    (t.resize w h d s).1.width = w ∧
    (t.resize w h d s).1.height = h ∧
    (t.resize w h d s).1.depth = d.getD 0 ∧
    GLCall.deleteTexture t.texture ∈ (t.resize w h d s).2.2 := by
  have hf := resize_fst t w h d s
  rw [if_neg hneq] at hf
  refine ⟨by rw [hf], ?_, by rw [hf], by rw [hf], by rw [hf], ?_⟩
  · rw [hf]
    intro heq
    cases ht : t.texture with
    | none => rw [ht] at heq; exact Option.noConfusion heq
    | some n =>
      have hlt := hfresh n ht
      rw [ht] at heq
      have : s.nextTexture = n := Option.some.injEq _ _ ▸ congrArg (Option.getD · 0) heq
      omega
  · unfold Texture.resize Texture.bind
    simp only [hneq, if_false]
    by_cases h3 : t.is3D <;>
      cases t.baseLevel <;> cases t.maxLevel <;> simp [h3]

/-- C5 witness: resizing the concrete 64×32 texture (handle 5, allocator at
6) to 128×64 yields handle 6 ≠ 5, records (128, 64, 0), and issues a
`deleteTexture` of handle 5. -/
theorem C5_witness :
    (tex0.resize 128 64 none glState1).1.texture = some glState1.nextTexture ∧
    (tex0.resize 128 64 none glState1).1.texture ≠ tex0.texture ∧
    (tex0.resize 128 64 none glState1).1.width = 128 ∧
    (tex0.resize 128 64 none glState1).1.height = 64 ∧
    (tex0.resize 128 64 none glState1).1.depth = (none : Option Int).getD 0 ∧
    GLCall.deleteTexture tex0.texture ∈ (tex0.resize 128 64 none glState1).2.2 :=
  C5_resize_realloc tex0 glState1 128 64 none (by decide)
    (fun n hn => by
      have h5 : (5 : Nat) = n := Option.some.inj hn
      have h6 : glState1.nextTexture = 6 := rfl
      omega)

/-- C6: with the `generateMipmaps` option omitted, the flag is true exactly
when the resolved minification filter is `LINEAR_MIPMAP_NEAREST` or
`LINEAR_MIPMAP_LINEAR`; an explicit `generateMipmaps: false` always yields a
false flag, whatever the filter. -/
theorem C6_generateMipmaps_default (appState : AppState) (binding : Int)
    (image : Option Image) (width height depth : Option Int) (is3D : Bool)
    (opts : TexOptions) (s : GLState) (r : Texture × GLState × List GLCall)
    (hr : mkTexture appState binding image width height depth is3D opts s =
      some r) :
    (opts.generateMipmaps = none →
      (r.1.generateMipmaps = true ↔
        (opts.minFilter.getD LINEAR_MIPMAP_NEAREST = LINEAR_MIPMAP_NEAREST ∨
         opts.minFilter.getD LINEAR_MIPMAP_NEAREST = LINEAR_MIPMAP_LINEAR))) ∧
    (opts.generateMipmaps = some false → r.1.generateMipmaps = false) := by
  have hgm := mkTexture_generateMipmaps appState binding image width height
    depth is3D opts s r hr
  constructor
  · intro hnone
    rw [hgm, hnone]
    simp
  · intro hfalse
    rw [hgm, hfalse]
    simp

/-- C6 witness: with defaulted options (filter defaults to
`LINEAR_MIPMAP_NEAREST`, `generateMipmaps` omitted) the flag is on, matching
the first disjunct. -/
theorem C6_witness :
    (({} : TexOptions).generateMipmaps = none →
      (ctor0.1.generateMipmaps = true ↔
        (({} : TexOptions).minFilter.getD LINEAR_MIPMAP_NEAREST =
            LINEAR_MIPMAP_NEAREST ∨
         ({} : TexOptions).minFilter.getD LINEAR_MIPMAP_NEAREST =
            LINEAR_MIPMAP_LINEAR))) ∧
    (({} : TexOptions).generateMipmaps = some false →
      ctor0.1.generateMipmaps = false) :=
  C6_generateMipmaps_default appState0 TEXTURE_2D (some img0) none none none
    false {} glState0 ctor0 rfl

/-- C7: the first `delete` on a texture with a non-null handle releases both
GPU objects (issuing exactly the two delete calls) and nulls both handles;
a `delete` with a null handle is a no-op, so a second `delete` never has any
effect. -/
theorem C7_delete_idempotent (t : Texture) (s : GLState) :
    (∀ n, t.texture = some n →
      ((t.delete s).1.texture = none ∧ (t.delete s).1.sampler = none ∧
       (t.delete s).2.2 =
         [GLCall.deleteTexture t.texture, GLCall.deleteSampler t.sampler])) ∧
    (t.texture = none → t.delete s = (t, s, [])) ∧
    ((t.delete s).1.delete ((t.delete s).2.1) =
      ((t.delete s).1, (t.delete s).2.1, [])) := by
  refine ⟨?_, ?_, ?_⟩
  · intro n hn
    unfold Texture.delete
    rw [hn]
    exact ⟨rfl, rfl, rfl⟩
  · intro hn
    unfold Texture.delete
    rw [hn]
  · cases ht : t.texture <;> simp [Texture.delete, ht]

/-- C7 witness: at the concrete texture with handle 5 the first delete clears
both handles and issues the two delete calls, and a repeated delete is a
no-op. -/
theorem C7_witness :
    (∀ n, tex0.texture = some n →
      ((tex0.delete glState1).1.texture = none ∧
       (tex0.delete glState1).1.sampler = none ∧
       (tex0.delete glState1).2.2 =
         [GLCall.deleteTexture tex0.texture,
          GLCall.deleteSampler tex0.sampler])) ∧
    (tex0.texture = none → tex0.delete glState1 = (tex0, glState1, [])) ∧
    ((tex0.delete glState1).1.delete ((tex0.delete glState1).2.1) =
      ((tex0.delete glState1).1, (tex0.delete glState1).2.1, [])) :=
  C7_delete_idempotent tex0 glState1

/-- C9: an explicit `generateMipmaps: true` does not force mipmaps on — when
the resolved minification filter is neither mipmap-sampling filter, the flag
is false anyway. -/
theorem C9_explicit_true_not_forcing (appState : AppState) (binding : Int)
    (image : Option Image) (width height depth : Option Int) (is3D : Bool)
    (opts : TexOptions) (s : GLState) (r : Texture × GLState × List GLCall)
    (hr : mkTexture appState binding image width height depth is3D opts s =
      some r)
    (_hopt : opts.generateMipmaps = some true)
    (hmf : opts.minFilter.getD LINEAR_MIPMAP_NEAREST ≠ LINEAR_MIPMAP_NEAREST ∧
           opts.minFilter.getD LINEAR_MIPMAP_NEAREST ≠ LINEAR_MIPMAP_LINEAR) :
    r.1.generateMipmaps = false := by
  have hgm := mkTexture_generateMipmaps appState binding image width height
    depth is3D opts s r hr
  rw [hgm]
  simp [hmf.1, hmf.2]

/-- C9 witness: `minFilter: LINEAR` with `generateMipmaps: true` still yields
a false flag. -/
theorem C9_witness :
    opts9.generateMipmaps = some true ∧ ctor9.1.generateMipmaps = false :=
  ⟨rfl,
    C9_explicit_true_not_forcing appState0 TEXTURE_2D (some img0) none none
      none false opts9 glState0 ctor9 rfl rfl (by decide)⟩

/-- C8: the sampler is created exactly once, during construction (the
construction trace contains exactly one sampler-creation call), and after
construction no sequence of `resize`/`data`/`bind` operations ever issues a
sampler-creation or sampler-parameter call or changes the sampler handle. -/
theorem C8_sampler_set_once (appState : AppState) (binding : Int)
    (image : Option Image) (width height depth : Option Int) (is3D : Bool)
    (opts : TexOptions) (s : GLState) (r : Texture × GLState × List GLCall)
    (hr : mkTexture appState binding image width height depth is3D opts s =
      some r) (ops : List TexOp) :
    r.2.2.countP (fun c => isCreateSampler c) = 1 ∧
    ((r.1.runOps r.2.1 ops).2.2).all (fun c => !isSamplerCall c) = true ∧
    (r.1.runOps r.2.1 ops).1.sampler = r.1.sampler := by
  refine ⟨?_, (runOps_no_sampler ops r.1 r.2.1).1,
    (runOps_no_sampler ops r.1 r.2.1).2⟩
  unfold mkTexture at hr
  cases hjw : jsOrImageDim width image Image.width with
  | none => rw [hjw] at hr; exact Option.noConfusion hr
  | some w =>
    cases hjh : jsOrImageDim height image Image.height with
    | none => rw [hjw, hjh] at hr; exact Option.noConfusion hr
    | some h =>
      rw [hjw, hjh] at hr
      rw [← Option.some.inj hr]
      exact constructTexture_one_createSampler appState binding image w h
        depth is3D opts s

/-- C8 witness: the concrete construction's trace has exactly one
sampler-creation call, and the concrete resize/data/bind sequence afterwards
issues no sampler call and preserves the sampler handle. -/
theorem C8_witness :
    ctor0.2.2.countP (fun c => isCreateSampler c) = 1 ∧
    ((ctor0.1.runOps ctor0.2.1 ops0).2.2).all (fun c => !isSamplerCall c) =
      true ∧
    (ctor0.1.runOps ctor0.2.1 ops0).1.sampler = ctor0.1.sampler :=
  C8_sampler_set_once appState0 TEXTURE_2D (some img0) none none none false
    {} glState0 ctor0 rfl ops0

/-- C10: `delete` leaves the recorded width/height/depth untouched while the
handle is null afterwards, so a subsequent `resize` with the recorded triple
short-circuits as a no-op and the texture handle stays null. -/
theorem C10_delete_then_resize_noop (t : Texture) (s : GLState) :
    (t.delete s).1.width = t.width ∧
    (t.delete s).1.height = t.height ∧
    (t.delete s).1.depth = t.depth ∧
    (t.delete s).1.texture = none ∧
    ((t.delete s).1.resize t.width t.height (some t.depth)
        ((t.delete s).2.1) =
      ((t.delete s).1, (t.delete s).2.1, [])) := by
  have hfst : (t.delete s).1.width = t.width ∧
      (t.delete s).1.height = t.height ∧
      (t.delete s).1.depth = t.depth ∧
      (t.delete s).1.texture = none := by
    unfold Texture.delete
    cases ht : t.texture <;> simp [ht]
  refine ⟨hfst.1, hfst.2.1, hfst.2.2.1, hfst.2.2.2, ?_⟩
  unfold Texture.resize
  rw [hfst.1, hfst.2.1, hfst.2.2.1]
  simp

end PicoGL
